import Mathlib

/-!
Verification of `generate_telemetry.py` (the `locol` telemetry-generation
supervisor script) against its natural-language specification.

The script is embedded shallowly as a deterministic interpreter over an
*environment oracle* that fixes the outcome of every external effect:
each `subprocess.Popen` call (succeeds, raises `FileNotFoundError`, or
raises another exception), each `Popen.wait` call (returns normally, is
interrupted by SIGINT while blocked, or raises another exception), and
each `terminate` attempt in the `finally` cleanup pass (raises or not).
Running the interpreter yields the ordered trace of observable events
(prints, launches, wait calls, termination requests) together with the
process exit status.
-/

namespace Locol

/-- Outcome of one `subprocess.Popen` call, as decided by the environment. -/
inductive PopenOutcome where
  | ok
  | fileNotFound
  | raisesOther (msg : String)
deriving DecidableEq, Repr

/-- Outcome of one `Popen.wait` call: normal child exit, SIGINT delivered
while the coordinating thread is blocked in this wait, or some other
exception raised by the wait. -/
inductive WaitOutcome where
  | ok
  | sigint
  | raisesOther (msg : String)
deriving DecidableEq, Repr

/-- Environment oracle: outcomes of the external effects, indexed by the
0-based position of the call (launch attempt index, wait index, cleanup
terminate index). -/
structure Env where
  popen : Nat → PopenOutcome
  waitOutcome : Nat → WaitOutcome
  cleanupRaises : Nat → Bool

/-- The configuration reaching `run_otelgen(endpoint, rate, duration)`:
`duration=None` is `none`; a supplied integer is `some d`. -/
structure Config where
  endpoint : String
  rate : Int
  duration : Option Int
deriving DecidableEq, Repr

/-- Observable events of a run, in program order. -/
inductive Event where
  | printed (s : String)
  | launch (ty : String) (idx : Nat) (cmd : List String)
  | waitCall (idx : Nat)
  | handlerTerm (idx : Nat)
  | cleanupTerm (idx : Nat) (raised : Bool)
deriving DecidableEq, Repr

/-- The seven fixed leading arguments of `base_cmd` (lines 17-23 of the
source): binary name, endpoint flag+value, rate flag+value, service name
flag+value, insecure flag. -/
def fixedArgs (cfg : Config) : List String :=
  ["otelgen",
   "--otel-exporter-otlp-endpoint", cfg.endpoint,
   "--rate", toString cfg.rate,
   "--service-name", "locol-test-generator",
   "--insecure"]

/-- The arguments appended by the duration-truthiness check of lines
25-26 of the source. Python truthiness: None and 0 are falsy, every
other int is truthy, so the duration flag and its stringified value are
appended exactly when the supplied duration is a nonzero integer. -/
def durationArgs : Option Int → List String
  | none => []
  | some d => if d != 0 then ["--duration", toString d] else []

/-- `base_cmd` after the optional duration extension. -/
def base_cmd (cfg : Config) : List String :=
  fixedArgs cfg ++ durationArgs cfg.duration

/-- The `telemetry_commands` dict (lines 29-33), in insertion order. -/
def telemetry_commands : List (String × List String) :=
  [("traces", ["traces", "multi"]),
   ("metrics", ["metrics", "sum"]),
   ("logs", ["logs", "multi"])]

/-- The message printed before each launch (line 40): the telemetry
type followed by the space-joined command. -/
def startMsg (ty : String) (cmd : List String) : String :=
  "Starting " ++ ty ++ " generator: " ++ String.intercalate " " cmd

/-- Error raised out of the launch loop, distinguishing the
`FileNotFoundError` handler (line 56) from the generic `Exception`
handler (line 60). -/
inductive LaunchErr where
  | fnf
  | other (msg : String)
deriving DecidableEq, Repr

/-- The launch loop (lines 38-42): for each telemetry type, print the
start message, then `Popen`. A successful `Popen` appends a handle; a
raising `Popen` aborts the loop with the corresponding error. Returns
the events, the number of handles recorded, and the error if any. -/
def launchLoop (cfg : Config) (env : Env) :
    List (String × List String) → Nat → List Event × Nat × Option LaunchErr
  | [], n => ([], n, none)
  | (ty, sub) :: rest, n =>
    match env.popen n with
    | .ok =>
      (Event.printed (startMsg ty (base_cmd cfg ++ sub)) ::
         Event.launch ty n (base_cmd cfg ++ sub) ::
         (launchLoop cfg env rest (n + 1)).1,
       (launchLoop cfg env rest (n + 1)).2)
    | .fileNotFound =>
      ([Event.printed (startMsg ty (base_cmd cfg ++ sub))], n, some .fnf)
    | .raisesOther msg =>
      ([Event.printed (startMsg ty (base_cmd cfg ++ sub))], n, some (.other msg))

/-- Events produced by `signal_handler` (lines 44-48): print the stop
message, request termination of every recorded handle, then
`sys.exit(0)`. -/
def handlerEvents (total : Nat) : List Event :=
  Event.printed "\nStopping telemetry generation..." ::
    (List.range total).map Event.handlerTerm

/-- Status with which the wait loop (lines 53-54) ends. -/
inductive WaitStatus where
  | done
  | interrupted
  | errored (msg : String)
deriving DecidableEq, Repr

/-- The wait loop over the recorded handle indices. Each iteration calls
`p.wait()`; SIGINT delivered during a wait runs `signal_handler`, whose
`sys.exit(0)` (a `SystemExit`, not caught by `except Exception`)
propagates out of the loop; any other exception raised by a wait also
aborts the loop. -/
def waitSeq (env : Env) (total : Nat) : List Nat → List Event × WaitStatus
  | [] => ([], .done)
  | i :: rest =>
    match env.waitOutcome i with
    | .ok =>
      (Event.waitCall i :: (waitSeq env total rest).1, (waitSeq env total rest).2)
    | .sigint =>
      (Event.waitCall i :: handlerEvents total, .interrupted)
    | .raisesOther msg => ([Event.waitCall i], .errored msg)

/-- The `finally` cleanup pass (lines 63-69): `terminate` each recorded
handle inside `try ... except: pass`; the attempt is made (and recorded,
with whether it raised) regardless, and a raising attempt is swallowed. -/
def cleanupEvents (env : Env) (n : Nat) : List Event :=
  (List.range n).map fun i => Event.cleanupTerm i (env.cleanupRaises i)

/-- First line printed by the `FileNotFoundError` handler (line 57). -/
def fnfMsg1 : String := "Error: otelgen not found. Please install it with:"

/-- Second line printed by the `FileNotFoundError` handler (line 58). -/
def fnfMsg2 : String := "go install github.com/krzko/otelgen@latest"

/-- Message printed by the generic `Exception` handler (line 61). -/
def runErrMsg (msg : String) : String := "Error running otelgen: " ++ msg

/-- The whole of `run_otelgen` (lines 8-69): launch loop, then (when all
launches succeeded) the wait loop; the `except FileNotFoundError` and
`except Exception` handlers each print and `sys.exit(1)`; the `finally`
cleanup pass runs on every path; SIGINT exits 0 via the handler, and
normal completion returns (process exit 0). Result: (trace, exit code). -/
def run_otelgen (cfg : Config) (env : Env) : List Event × Nat :=
  match launchLoop cfg env telemetry_commands 0 with
  | (levs, n, some .fnf) =>
    (levs ++ [Event.printed fnfMsg1, Event.printed fnfMsg2] ++ cleanupEvents env n, 1)
  | (levs, n, some (.other msg)) =>
    (levs ++ [Event.printed (runErrMsg msg)] ++ cleanupEvents env n, 1)
  | (levs, n, none) =>
    match waitSeq env n (List.range n) with
    | (wevs, .done) => (levs ++ wevs ++ cleanupEvents env n, 0)
    | (wevs, .interrupted) => (levs ++ wevs ++ cleanupEvents env n, 0)
    | (wevs, .errored msg) =>
      (levs ++ wevs ++ [Event.printed (runErrMsg msg)] ++ cleanupEvents env n, 1)

/-- The startup banner printed by `main` (lines 82-87); the duration line
is printed only when `args.duration` is truthy. -/
def mainStartupEvents (cfg : Config) : List Event :=
  [Event.printed "Starting telemetry generation...",
   Event.printed ("Endpoint: " ++ cfg.endpoint),
   Event.printed ("Rate: " ++ toString cfg.rate ++ " seconds")]
  ++ (match cfg.duration with
      | some d =>
        if d != 0 then [Event.printed ("Duration: " ++ toString d ++ " seconds")] else []
      | none => [])
  ++ [Event.printed "\nPress Ctrl+C to stop"]

/-- `main` (lines 71-89) after argument parsing: startup banner, then
`run_otelgen(args.endpoint, args.rate, args.duration)`. -/
def main (cfg : Config) (env : Env) : List Event × Nat :=
  (mainStartupEvents cfg ++ (run_otelgen cfg env).1, (run_otelgen cfg env).2)

/-- Projection of a trace to its launch events `(type, index, command)`. -/
def launchEvents (t : List Event) : List (String × Nat × List String) :=
  t.filterMap fun e =>
    match e with
    | .launch ty i c => some (ty, i, c)
    | _ => none

/-- Projection of a trace to the workload types launched, in order. -/
def launchedTypes (t : List Event) : List String :=
  (launchEvents t).map fun x => x.1

/-- Projection of a trace to the interleaving of launches (`inl idx`) and
wait calls (`inr idx`). -/
def launchWaitSeq (t : List Event) : List (Nat ⊕ Nat) :=
  t.filterMap fun e =>
    match e with
    | .launch _ i _ => some (Sum.inl i)
    | .waitCall i => some (Sum.inr i)
    | _ => none

/-- Modelled from the spec (section 6, external collaborator): the
invocation for one signal type is the binary name, the OTLP endpoint,
the rate, the fixed service-name identifier, the insecure-transport
flag, the optional duration, and the signal-type-specific sub-command
pair. Used only to compare the spec's description of the command line
with the command the source constructs. -/
def specInvocation (cfg : Config) (sub : List String) : List String :=
  ["otelgen",
   "--otel-exporter-otlp-endpoint", cfg.endpoint,
   "--rate", toString cfg.rate,
   "--service-name", "locol-test-generator",
   "--insecure"]
  ++ (match cfg.duration with
      | none => []
      | some d => ["--duration", toString d])
  ++ sub

/-- Number of child handles recorded by the launch loop. -/
def launchedCount (cfg : Config) (env : Env) : Nat :=
  (launchLoop cfg env telemetry_commands 0).2.1

/-- The event trace of a fully successful launch phase. -/
def okLaunchTrace (cfg : Config) : List Event :=
  [Event.printed (startMsg "traces" (base_cmd cfg ++ ["traces", "multi"])),
   Event.launch "traces" 0 (base_cmd cfg ++ ["traces", "multi"]),
   Event.printed (startMsg "metrics" (base_cmd cfg ++ ["metrics", "sum"])),
   Event.launch "metrics" 1 (base_cmd cfg ++ ["metrics", "sum"]),
   Event.printed (startMsg "logs" (base_cmd cfg ++ ["logs", "multi"])),
   Event.launch "logs" 2 (base_cmd cfg ++ ["logs", "multi"])]

/-- Extra events between the end of the wait phase and the cleanup pass:
only the generic error handler prints anything there. -/
def waitTailEvents : WaitStatus → List Event
  | .errored msg => [Event.printed (runErrMsg msg)]
  | _ => []

/-- Exit status as a function of how the wait phase ended: 1 only via the
generic `Exception` handler; both normal completion and the SIGINT
handler's `sys.exit(0)` yield 0. -/
def waitExitCode : WaitStatus → Nat
  | .errored _ => 1
  | _ => 0

/-- The default configuration (`--endpoint localhost:4317 --rate 5`, no
duration), used to instantiate universally quantified results. -/
def cfgDefault : Config := Config.mk "localhost:4317" 5 none

/-- A bounded-run configuration (`--endpoint collector:4317 --rate 2
--duration 30`). -/
def cfgTimed : Config := Config.mk "collector:4317" 2 (some 30)

/-- Environment in which every external call succeeds. -/
def envAllOk : Env :=
  Env.mk (fun _ => PopenOutcome.ok) (fun _ => WaitOutcome.ok) (fun _ => false)

/-- Environment in which all launches succeed and SIGINT arrives during
the first wait. -/
def envInterrupt : Env :=
  Env.mk (fun _ => PopenOutcome.ok) (fun _ => WaitOutcome.sigint) (fun _ => false)

/-- Environment in which the first launch succeeds and the second `Popen`
raises `FileNotFoundError`; cleanup terminations themselves raise (and
must be swallowed). -/
def envMissingBinary : Env :=
  Env.mk (fun j => if j < 1 then PopenOutcome.ok else PopenOutcome.fileNotFound)
    (fun _ => WaitOutcome.ok) (fun _ => true)

/-- Environment in which the third `Popen` raises a generic exception. -/
def envSpawnError : Env :=
  Env.mk (fun j => if j < 2 then PopenOutcome.ok else PopenOutcome.raisesOther "boom")
    (fun _ => WaitOutcome.ok) (fun _ => false)

/-- Environment in which launches succeed and the second wait raises a
generic exception. -/
def envWaitError : Env :=
  Env.mk (fun _ => PopenOutcome.ok)
    (fun j => if j < 1 then WaitOutcome.ok else WaitOutcome.raisesOther "late")
    (fun _ => false)

theorem range_three : List.range 3 = [0, 1, 2] := rfl

theorem launchLoop_all_ok (cfg : Config) (env : Env)
    (h0 : env.popen 0 = .ok) (h1 : env.popen 1 = .ok) (h2 : env.popen 2 = .ok) :
    launchLoop cfg env telemetry_commands 0 = (okLaunchTrace cfg, 3, none) := by
  simp [launchLoop, telemetry_commands, okLaunchTrace, h0, h1, h2]

theorem launchEvents_handlerEvents (n : Nat) :
    launchEvents (handlerEvents n) = [] := by
  simp [launchEvents, handlerEvents, List.filterMap_map]

theorem launchEvents_cleanupEvents (env : Env) (n : Nat) :
    launchEvents (cleanupEvents env n) = [] := by
  simp [launchEvents, cleanupEvents, List.filterMap_map]

theorem launchEvents_waitSeq (env : Env) (total : Nat) (l : List Nat) :
    launchEvents (waitSeq env total l).1 = [] := by
  induction l with
  | nil => rfl
  | cons i rest ih =>
    cases h : env.waitOutcome i with
    | ok => simpa [waitSeq, h, launchEvents] using ih
    | sigint =>
      simpa [waitSeq, h, launchEvents] using launchEvents_handlerEvents total
    | raisesOther msg => simp [waitSeq, h, launchEvents]

theorem launchEvents_append (s t : List Event) :
    launchEvents (s ++ t) = launchEvents s ++ launchEvents t := by
  simp [launchEvents]

/-- Shape of the whole run when all three launches succeed. -/
theorem run_otelgen_ok (cfg : Config) (env : Env)
    (h0 : env.popen 0 = .ok) (h1 : env.popen 1 = .ok) (h2 : env.popen 2 = .ok) :
    run_otelgen cfg env =
      (okLaunchTrace cfg ++ (waitSeq env 3 (List.range 3)).1
         ++ waitTailEvents (waitSeq env 3 (List.range 3)).2
         ++ cleanupEvents env 3,
       waitExitCode (waitSeq env 3 (List.range 3)).2) := by
  unfold run_otelgen
  rw [launchLoop_all_ok cfg env h0 h1 h2]
  cases hw : waitSeq env 3 (List.range 3) with
  | mk wevs st =>
    cases st <;> simp [hw, waitTailEvents, waitExitCode, okLaunchTrace]

/-- Under a fully successful launch phase, the launch events of the whole
run are exactly one per telemetry type, in dict order, with the commands
the source constructs — whatever the wait outcomes are. -/
theorem launchEvents_run_ok (cfg : Config) (env : Env)
    (h0 : env.popen 0 = .ok) (h1 : env.popen 1 = .ok) (h2 : env.popen 2 = .ok) :
    launchEvents (run_otelgen cfg env).1 =
      [("traces", 0, base_cmd cfg ++ ["traces", "multi"]),
       ("metrics", 1, base_cmd cfg ++ ["metrics", "sum"]),
       ("logs", 2, base_cmd cfg ++ ["logs", "multi"])] := by
  have htail : launchEvents (waitTailEvents (waitSeq env 3 (List.range 3)).2) = [] := by
    cases (waitSeq env 3 (List.range 3)).2 <;> simp [waitTailEvents, launchEvents]
  have hok : launchEvents (okLaunchTrace cfg) =
      [("traces", 0, base_cmd cfg ++ ["traces", "multi"]),
       ("metrics", 1, base_cmd cfg ++ ["metrics", "sum"]),
       ("logs", 2, base_cmd cfg ++ ["logs", "multi"])] := by
    simp [okLaunchTrace, launchEvents]
  rw [run_otelgen_ok cfg env h0 h1 h2]
  simp only [launchEvents_append, launchEvents_waitSeq, launchEvents_cleanupEvents,
    htail, hok, List.append_nil]

/-- Claim C2: if the k-th `Popen` raises `FileNotFoundError` (the otelgen
binary cannot be located) after k successful launches, the run prints
both remediation lines (including the install instructions), launches no
further workload spec, attempts termination of every already-started
child in the cleanup pass, and exits with status 1. -/
theorem missing_binary_exits_one_with_remediation
    (cfg : Config) (env : Env) (k : Nat)
    (hk : k < 3)
    (hbefore : ∀ j, j < k → env.popen j = .ok)
    (hfnf : env.popen k = .fileNotFound) :
    (run_otelgen cfg env).2 = 1 ∧
    Event.printed fnfMsg1 ∈ (run_otelgen cfg env).1 ∧
    Event.printed fnfMsg2 ∈ (run_otelgen cfg env).1 ∧
    (∀ ty j c, Event.launch ty j c ∈ (run_otelgen cfg env).1 → j < k) ∧
    (∀ j, j < k → Event.cleanupTerm j (env.cleanupRaises j) ∈ (run_otelgen cfg env).1) := by
  interval_cases k
  · have hrun : run_otelgen cfg env =
        ([Event.printed (startMsg "traces" (base_cmd cfg ++ ["traces", "multi"]))]
           ++ [Event.printed fnfMsg1, Event.printed fnfMsg2] ++ cleanupEvents env 0, 1) := by
      simp [run_otelgen, launchLoop, telemetry_commands, hfnf]
    rw [hrun]
    refine ⟨rfl, by simp, by simp, ?_, by omega⟩
    intro ty j c hmem
    simp [cleanupEvents] at hmem
  · have h0 : env.popen 0 = .ok := hbefore 0 (by omega)
    have hrun : run_otelgen cfg env =
        ([Event.printed (startMsg "traces" (base_cmd cfg ++ ["traces", "multi"])),
          Event.launch "traces" 0 (base_cmd cfg ++ ["traces", "multi"]),
          Event.printed (startMsg "metrics" (base_cmd cfg ++ ["metrics", "sum"]))]
           ++ [Event.printed fnfMsg1, Event.printed fnfMsg2] ++ cleanupEvents env 1, 1) := by
      simp [run_otelgen, launchLoop, telemetry_commands, h0, hfnf]
    rw [hrun]
    refine ⟨rfl, by simp, by simp, ?_, ?_⟩
    · intro ty j c hmem
      simp [cleanupEvents] at hmem
      omega
    · intro j hj
      interval_cases j
      simp [cleanupEvents]
  · have h0 : env.popen 0 = .ok := hbefore 0 (by omega)
    have h1 : env.popen 1 = .ok := hbefore 1 (by omega)
    have hrun : run_otelgen cfg env =
        ([Event.printed (startMsg "traces" (base_cmd cfg ++ ["traces", "multi"])),
          Event.launch "traces" 0 (base_cmd cfg ++ ["traces", "multi"]),
          Event.printed (startMsg "metrics" (base_cmd cfg ++ ["metrics", "sum"])),
          Event.launch "metrics" 1 (base_cmd cfg ++ ["metrics", "sum"]),
          Event.printed (startMsg "logs" (base_cmd cfg ++ ["logs", "multi"]))]
           ++ [Event.printed fnfMsg1, Event.printed fnfMsg2] ++ cleanupEvents env 2, 1) := by
      simp [run_otelgen, launchLoop, telemetry_commands, h0, h1, hfnf]
    rw [hrun]
    refine ⟨rfl, by simp, by simp, ?_, ?_⟩
    · intro ty j c hmem
      simp [cleanupEvents, List.range_succ] at hmem
      omega
    · intro j hj
      interval_cases j <;> simp [cleanupEvents, List.range_succ]

/-- Claim C6: any error other than the missing-binary case — the k-th `Popen`
raising a generic exception, or any wait raising a generic exception —
makes the run print a message containing the error, attempt termination
of every recorded child in the cleanup pass, and exit with status 1. -/
theorem other_error_reports_and_exits_one (cfg : Config) (env : Env) :
    (∀ k msg, k < 3 → (∀ j, j < k → env.popen j = .ok) →
       env.popen k = .raisesOther msg →
       (run_otelgen cfg env).2 = 1 ∧
       Event.printed (runErrMsg msg) ∈ (run_otelgen cfg env).1 ∧
       (∀ j, j < k → Event.cleanupTerm j (env.cleanupRaises j) ∈ (run_otelgen cfg env).1)) ∧
    (∀ i msg, i < 3 → (∀ j, env.popen j = .ok) →
       (∀ j, j < i → env.waitOutcome j = .ok) →
       env.waitOutcome i = .raisesOther msg →
       (run_otelgen cfg env).2 = 1 ∧
       Event.printed (runErrMsg msg) ∈ (run_otelgen cfg env).1 ∧
       (∀ j, j < 3 → Event.cleanupTerm j (env.cleanupRaises j) ∈ (run_otelgen cfg env).1)) := by
  constructor
  · intro k msg hk hbefore herr
    interval_cases k
    · have hrun : run_otelgen cfg env =
          ([Event.printed (startMsg "traces" (base_cmd cfg ++ ["traces", "multi"]))]
             ++ [Event.printed (runErrMsg msg)] ++ cleanupEvents env 0, 1) := by
        simp [run_otelgen, launchLoop, telemetry_commands, herr]
      rw [hrun]
      exact ⟨rfl, by simp, by omega⟩
    · have h0 : env.popen 0 = .ok := hbefore 0 (by omega)
      have hrun : run_otelgen cfg env =
          ([Event.printed (startMsg "traces" (base_cmd cfg ++ ["traces", "multi"])),
            Event.launch "traces" 0 (base_cmd cfg ++ ["traces", "multi"]),
            Event.printed (startMsg "metrics" (base_cmd cfg ++ ["metrics", "sum"]))]
             ++ [Event.printed (runErrMsg msg)] ++ cleanupEvents env 1, 1) := by
        simp [run_otelgen, launchLoop, telemetry_commands, h0, herr]
      rw [hrun]
      refine ⟨rfl, by simp, ?_⟩
      intro j hj
      interval_cases j
      simp [cleanupEvents]
    · have h0 : env.popen 0 = .ok := hbefore 0 (by omega)
      have h1 : env.popen 1 = .ok := hbefore 1 (by omega)
      have hrun : run_otelgen cfg env =
          ([Event.printed (startMsg "traces" (base_cmd cfg ++ ["traces", "multi"])),
            Event.launch "traces" 0 (base_cmd cfg ++ ["traces", "multi"]),
            Event.printed (startMsg "metrics" (base_cmd cfg ++ ["metrics", "sum"])),
            Event.launch "metrics" 1 (base_cmd cfg ++ ["metrics", "sum"]),
            Event.printed (startMsg "logs" (base_cmd cfg ++ ["logs", "multi"]))]
             ++ [Event.printed (runErrMsg msg)] ++ cleanupEvents env 2, 1) := by
        simp [run_otelgen, launchLoop, telemetry_commands, h0, h1, herr]
      rw [hrun]
      refine ⟨rfl, by simp, ?_⟩
      intro j hj
      interval_cases j <;> simp [cleanupEvents, List.range_succ]
  · intro i msg hi hp hbefore herr
    have h0 : env.popen 0 = .ok := hp 0
    have h1 : env.popen 1 = .ok := hp 1
    have h2 : env.popen 2 = .ok := hp 2
    rw [run_otelgen_ok cfg env h0 h1 h2]
    interval_cases i
    · have hw : waitSeq env 3 (List.range 3) = ([Event.waitCall 0], .errored msg) := by
        simp [waitSeq, range_three, herr]
      rw [hw]
      refine ⟨rfl, by simp [waitTailEvents], ?_⟩
      intro j hj
      interval_cases j <;> simp [cleanupEvents, range_three]
    · have hb0 : env.waitOutcome 0 = .ok := hbefore 0 (by omega)
      have hw : waitSeq env 3 (List.range 3) =
          ([Event.waitCall 0, Event.waitCall 1], .errored msg) := by
        simp [waitSeq, range_three, hb0, herr]
      rw [hw]
      refine ⟨rfl, by simp [waitTailEvents], ?_⟩
      intro j hj
      interval_cases j <;> simp [cleanupEvents, range_three]
    · have hb0 : env.waitOutcome 0 = .ok := hbefore 0 (by omega)
      have hb1 : env.waitOutcome 1 = .ok := hbefore 1 (by omega)
      have hw : waitSeq env 3 (List.range 3) =
          ([Event.waitCall 0, Event.waitCall 1, Event.waitCall 2], .errored msg) := by
        simp [waitSeq, range_three, hb0, hb1, herr]
      rw [hw]
      refine ⟨rfl, by simp [waitTailEvents], ?_⟩
      intro j hj
      interval_cases j <;> simp [cleanupEvents, range_three]

/-- Claim C1: SIGINT delivered while the program is blocked in any of the wait
calls (so at any point after all three children are launched) makes the
handler issue a termination request to every child handle, and the run
exits with status 0 without performing any further wait call. -/
theorem interrupt_terminates_children_and_exits_zero
    (cfg : Config) (env : Env) (i : Nat)
    (hp : ∀ j, env.popen j = .ok)
    (hi : i < 3)
    (hbefore : ∀ j, j < i → env.waitOutcome j = .ok)
    (hsig : env.waitOutcome i = .sigint) :
    (run_otelgen cfg env).2 = 0 ∧
    (∀ j, j < 3 → Event.handlerTerm j ∈ (run_otelgen cfg env).1) ∧
    (∀ j, Event.waitCall j ∈ (run_otelgen cfg env).1 → j ≤ i) := by
  have h0 : env.popen 0 = .ok := hp 0
  have h1 : env.popen 1 = .ok := hp 1
  have h2 : env.popen 2 = .ok := hp 2
  rw [run_otelgen_ok cfg env h0 h1 h2]
  interval_cases i
  · have hw : waitSeq env 3 (List.range 3) =
        (Event.waitCall 0 :: handlerEvents 3, .interrupted) := by
      simp [waitSeq, range_three, hsig]
    rw [hw]
    refine ⟨rfl, ?_, ?_⟩
    · intro j hj
      interval_cases j <;>
        simp [handlerEvents, range_three, waitTailEvents]
    · intro j hmem
      simp [okLaunchTrace, handlerEvents, cleanupEvents, waitTailEvents,
        range_three] at hmem
      omega
  · have hb0 : env.waitOutcome 0 = .ok := hbefore 0 (by omega)
    have hw : waitSeq env 3 (List.range 3) =
        (Event.waitCall 0 :: Event.waitCall 1 :: handlerEvents 3, .interrupted) := by
      simp [waitSeq, range_three, hb0, hsig]
    rw [hw]
    refine ⟨rfl, ?_, ?_⟩
    · intro j hj
      interval_cases j <;>
        simp [handlerEvents, range_three, waitTailEvents]
    · intro j hmem
      simp [okLaunchTrace, handlerEvents, cleanupEvents, waitTailEvents,
        range_three] at hmem
      omega
  · have hb0 : env.waitOutcome 0 = .ok := hbefore 0 (by omega)
    have hb1 : env.waitOutcome 1 = .ok := hbefore 1 (by omega)
    have hw : waitSeq env 3 (List.range 3) =
        (Event.waitCall 0 :: Event.waitCall 1 :: Event.waitCall 2 ::
           handlerEvents 3, .interrupted) := by
      simp [waitSeq, range_three, hb0, hb1, hsig]
    rw [hw]
    refine ⟨rfl, ?_, ?_⟩
    · intro j hj
      interval_cases j <;>
        simp [handlerEvents, range_three, waitTailEvents]
    · intro j hmem
      simp [okLaunchTrace, handlerEvents, cleanupEvents, waitTailEvents,
        range_three] at hmem
      omega

/-- Claim C8: in every run whose launches all succeed, the interleaving of
launch and wait events is the three launches, in spec order 0,1,2
(traces, metrics, logs), all before any wait call, followed by the wait
calls in that same spec order (a prefix 0..m-1 of the indices, m
depending on where the wait phase stops). -/
theorem launches_precede_waits_in_spec_order
    (cfg : Config) (env : Env)
    (hp : ∀ j, env.popen j = .ok) :
    ∃ m, 1 ≤ m ∧ m ≤ 3 ∧
      launchWaitSeq (run_otelgen cfg env).1 =
        [Sum.inl 0, Sum.inl 1, Sum.inl 2] ++ (List.range m).map Sum.inr := by
  have h0 : env.popen 0 = .ok := hp 0
  have h1 : env.popen 1 = .ok := hp 1
  have h2 : env.popen 2 = .ok := hp 2
  rw [run_otelgen_ok cfg env h0 h1 h2]
  cases hw0 : env.waitOutcome 0 with
  | ok =>
    cases hw1 : env.waitOutcome 1 with
    | ok =>
      cases hw2 : env.waitOutcome 2 with
      | ok =>
        refine ⟨3, by omega, by omega, ?_⟩
        have hw : waitSeq env 3 (List.range 3) =
            ([Event.waitCall 0, Event.waitCall 1, Event.waitCall 2], .done) := by
          simp [waitSeq, range_three, hw0, hw1, hw2]
        rw [hw]
        simp [launchWaitSeq, okLaunchTrace, cleanupEvents, waitTailEvents,
          range_three, List.range_succ, List.filterMap_map]
      | sigint =>
        refine ⟨3, by omega, by omega, ?_⟩
        have hw : waitSeq env 3 (List.range 3) =
            (Event.waitCall 0 :: Event.waitCall 1 :: Event.waitCall 2 ::
               handlerEvents 3, .interrupted) := by
          simp [waitSeq, range_three, hw0, hw1, hw2]
        rw [hw]
        simp [launchWaitSeq, okLaunchTrace, cleanupEvents, waitTailEvents,
          handlerEvents, range_three, List.range_succ, List.filterMap_map]
      | raisesOther msg =>
        refine ⟨3, by omega, by omega, ?_⟩
        have hw : waitSeq env 3 (List.range 3) =
            ([Event.waitCall 0, Event.waitCall 1, Event.waitCall 2], .errored msg) := by
          simp [waitSeq, range_three, hw0, hw1, hw2]
        rw [hw]
        simp [launchWaitSeq, okLaunchTrace, cleanupEvents, waitTailEvents,
          range_three, List.range_succ, List.filterMap_map]
    | sigint =>
      refine ⟨2, by omega, by omega, ?_⟩
      have hw : waitSeq env 3 (List.range 3) =
          (Event.waitCall 0 :: Event.waitCall 1 :: handlerEvents 3, .interrupted) := by
        simp [waitSeq, range_three, hw0, hw1]
      rw [hw]
      simp [launchWaitSeq, okLaunchTrace, cleanupEvents, waitTailEvents,
        handlerEvents, range_three, List.range_succ, List.filterMap_map]
    | raisesOther msg =>
      refine ⟨2, by omega, by omega, ?_⟩
      have hw : waitSeq env 3 (List.range 3) =
          ([Event.waitCall 0, Event.waitCall 1], .errored msg) := by
        simp [waitSeq, range_three, hw0, hw1]
      rw [hw]
      simp [launchWaitSeq, okLaunchTrace, cleanupEvents, waitTailEvents,
        range_three, List.range_succ, List.filterMap_map]
  | sigint =>
    refine ⟨1, by omega, by omega, ?_⟩
    have hw : waitSeq env 3 (List.range 3) =
        (Event.waitCall 0 :: handlerEvents 3, .interrupted) := by
      simp [waitSeq, range_three, hw0]
    rw [hw]
    simp [launchWaitSeq, okLaunchTrace, cleanupEvents, waitTailEvents,
      handlerEvents, range_three, List.range_succ, List.filterMap_map]
  | raisesOther msg =>
    refine ⟨1, by omega, by omega, ?_⟩
    have hw : waitSeq env 3 (List.range 3) =
        ([Event.waitCall 0], .errored msg) := by
      simp [waitSeq, range_three, hw0]
    rw [hw]
    simp [launchWaitSeq, okLaunchTrace, cleanupEvents, waitTailEvents,
      range_three, List.range_succ, List.filterMap_map]

/-- Claim C4: for every configuration, when the three `Popen` calls succeed the
workload types launched are exactly traces, metrics, logs — one child
each, in that order, with no further launch event afterwards (no child is
replaced or restarted). -/
theorem one_child_per_workload_type
    (cfg : Config) (env : Env)
    (hp : ∀ j, env.popen j = .ok) :
    launchedTypes (run_otelgen cfg env).1 = ["traces", "metrics", "logs"] := by
  simp [launchedTypes, launchEvents_run_ok cfg env (hp 0) (hp 1) (hp 2)]

/-- Claim C3: for every configuration with positive rate, if `duration` is
absent every launched invocation is the base command without any duration
argument, and if `duration` is present (a positive value, per the spec's
input constraint) every launched invocation carries `--duration` with
that same value. -/
theorem duration_flag_presence
    (cfg : Config) (env : Env)
    (hp : ∀ j, env.popen j = .ok)
    (hrate : 0 < cfg.rate) :
    (cfg.duration = none →
       launchEvents (run_otelgen cfg env).1 =
         [("traces", 0, fixedArgs cfg ++ ["traces", "multi"]),
          ("metrics", 1, fixedArgs cfg ++ ["metrics", "sum"]),
          ("logs", 2, fixedArgs cfg ++ ["logs", "multi"])]) ∧
    (∀ d, cfg.duration = some d → 0 < d →
       launchEvents (run_otelgen cfg env).1 =
         [("traces", 0,
            fixedArgs cfg ++ ["--duration", toString d] ++ ["traces", "multi"]),
          ("metrics", 1,
            fixedArgs cfg ++ ["--duration", toString d] ++ ["metrics", "sum"]),
          ("logs", 2,
            fixedArgs cfg ++ ["--duration", toString d] ++ ["logs", "multi"])]) := by
  have hle := launchEvents_run_ok cfg env (hp 0) (hp 1) (hp 2)
  constructor
  · intro hnone
    rw [hle]
    simp [base_cmd, durationArgs, hnone]
  · intro d hd hdpos
    have hne : d ≠ 0 := by omega
    rw [hle]
    simp [base_cmd, durationArgs, hd, hne]

/-- Claim C5: for every valid configuration (duration absent or positive), each
of the three launched invocations equals the command the spec describes:
binary name, OTLP endpoint, rate, fixed service-name identifier,
insecure-transport flag, optional duration, and the signal-type-specific
sub-command pair `traces multi` / `metrics sum` / `logs multi`. -/
theorem invocation_matches_spec_description
    (cfg : Config) (env : Env)
    (hp : ∀ j, env.popen j = .ok)
    (hdur : cfg.duration = none ∨ ∃ d, cfg.duration = some d ∧ 0 < d) :
    launchEvents (run_otelgen cfg env).1 =
      [("traces", 0, specInvocation cfg ["traces", "multi"]),
       ("metrics", 1, specInvocation cfg ["metrics", "sum"]),
       ("logs", 2, specInvocation cfg ["logs", "multi"])] := by
  have hle := launchEvents_run_ok cfg env (hp 0) (hp 1) (hp 2)
  rw [hle]
  rcases hdur with hnone | ⟨d, hd, hdpos⟩
  · simp [base_cmd, fixedArgs, durationArgs, specInvocation, hnone]
  · have hne : d ≠ 0 := by omega
    simp [base_cmd, fixedArgs, durationArgs, specInvocation, hd, hne]

theorem launchLoop_cleanup_irrel (cfg : Config) (env : Env) (f : Nat → Bool) :
    ∀ l n, launchLoop cfg (Env.mk env.popen env.waitOutcome f) l n =
      launchLoop cfg env l n := by
  intro l
  induction l with
  | nil => intro n; rfl
  | cons p rest ih =>
    intro n
    rcases p with ⟨ty, sub⟩
    simp only [launchLoop]
    cases env.popen n <;> simp [ih]

theorem waitSeq_cleanup_irrel (env : Env) (f : Nat → Bool) (total : Nat) :
    ∀ l, waitSeq (Env.mk env.popen env.waitOutcome f) total l =
      waitSeq env total l := by
  intro l
  induction l with
  | nil => rfl
  | cons i rest ih =>
    simp only [waitSeq]
    cases env.waitOutcome i <;> simp [ih]

/-- On every path of the run, the trace ends with the cleanup pass over
all recorded handles. -/
theorem run_trace_cleanup_suffix (cfg : Config) (env : Env) :
    ∃ pre, (run_otelgen cfg env).1 =
      pre ++ cleanupEvents env (launchedCount cfg env) := by
  unfold run_otelgen launchedCount
  rcases hl : launchLoop cfg env telemetry_commands 0 with ⟨levs, n, err⟩
  rcases err with _ | e
  · rcases hw : waitSeq env n (List.range n) with ⟨wevs, st⟩
    cases st with
    | done => exact ⟨levs ++ wevs, by simp [hw]⟩
    | interrupted => exact ⟨levs ++ wevs, by simp [hw]⟩
    | errored msg =>
      exact ⟨levs ++ wevs ++ [Event.printed (runErrMsg msg)], by simp [hw]⟩
  · rcases e with _ | msg
    · exact ⟨levs ++ [Event.printed fnfMsg1, Event.printed fnfMsg2], by simp⟩
    · exact ⟨levs ++ [Event.printed (runErrMsg msg)], by simp⟩

/-- Claim C7: on every exit path the final cleanup pass attempts to terminate
every recorded child handle (the attempt event is in the trace, with
whatever raised-flag the environment assigns it), and whether any of
those attempts raise has no effect on the exit status. -/
theorem cleanup_pass_on_every_exit_path
    (cfg : Config) (env : Env) :
    (∀ j, j < launchedCount cfg env →
       Event.cleanupTerm j (env.cleanupRaises j) ∈ (run_otelgen cfg env).1) ∧
    (∀ f, (run_otelgen cfg (Env.mk env.popen env.waitOutcome f)).2 =
       (run_otelgen cfg env).2) := by
  constructor
  · intro j hj
    rcases run_trace_cleanup_suffix cfg env with ⟨pre, hpre⟩
    rw [hpre]
    refine List.mem_append_right pre ?_
    simp only [cleanupEvents, List.mem_map]
    exact ⟨j, by simpa using hj, rfl⟩
  · intro f
    rcases hl : launchLoop cfg env telemetry_commands 0 with ⟨levs, n, err⟩
    unfold run_otelgen
    simp only [launchLoop_cleanup_irrel, waitSeq_cleanup_irrel, hl]
    rcases err with _ | e
    · rcases hw : waitSeq env n (List.range n) with ⟨wevs, st⟩
      simp only [hw]
      cases st <;> rfl
    · rcases e with _ | msg <;> rfl

theorem launchLoop_congr_base (cfg1 cfg2 : Config) (env : Env)
    (h : base_cmd cfg1 = base_cmd cfg2) :
    ∀ l n, launchLoop cfg1 env l n = launchLoop cfg2 env l n := by
  intro l
  induction l with
  | nil => intro n; rfl
  | cons p rest ih =>
    intro n
    rcases p with ⟨ty, sub⟩
    simp only [launchLoop, h]
    cases env.popen n <;> simp [ih]

theorem run_otelgen_congr_base (cfg1 cfg2 : Config) (env : Env)
    (h : base_cmd cfg1 = base_cmd cfg2) :
    run_otelgen cfg1 env = run_otelgen cfg2 env := by
  unfold run_otelgen
  rw [launchLoop_congr_base cfg1 cfg2 env h]

/-- Claim C9: a duration supplied as 0 is falsy in Python, so the program
behaves exactly as if duration were absent: the whole of `main` produces
the same trace and exit status as with no duration, the base command
gains no duration argument, and the startup banner omits the duration
line. -/
theorem zero_duration_behaves_as_absent (e : String) (r : Int) (env : Env) :
    main (Config.mk e r (some 0)) env = main (Config.mk e r none) env ∧
    base_cmd (Config.mk e r (some 0)) = fixedArgs (Config.mk e r (some 0)) ∧
    mainStartupEvents (Config.mk e r (some 0)) =
      [Event.printed "Starting telemetry generation...",
       Event.printed ("Endpoint: " ++ e),
       Event.printed ("Rate: " ++ toString r ++ " seconds"),
       Event.printed "\nPress Ctrl+C to stop"] := by
  have hbase : base_cmd (Config.mk e r (some 0)) = base_cmd (Config.mk e r none) := by
    simp [base_cmd, fixedArgs, durationArgs]
  refine ⟨?_, ?_, ?_⟩
  · unfold main
    rw [run_otelgen_congr_base (Config.mk e r (some 0)) (Config.mk e r none) env hbase]
    have hb : mainStartupEvents (Config.mk e r (some 0)) =
        mainStartupEvents (Config.mk e r none) := by
      simp [mainStartupEvents]
    rw [hb]
  · simp [base_cmd, durationArgs]
  · simp [mainStartupEvents]

/-- Claim C10 counterexample: with configuration endpoint "localhost:4317",
rate 5, duration 0, the duration is present yet its stringification is
not placed in the constructed command at all — the invocation is not
built by stringifying every supplied value verbatim. -/
theorem present_zero_duration_not_stringified :
    (Config.mk "localhost:4317" 5 (some 0)).duration = some 0 ∧
    "--duration" ∉ base_cmd (Config.mk "localhost:4317" 5 (some 0)) ∧
    toString (0 : Int) ∉ base_cmd (Config.mk "localhost:4317" 5 (some 0)) := by
  refine ⟨rfl, ?_, ?_⟩ <;> decide

/-- Claim C10 as amended: the run validates nothing — for every endpoint, every
integer rate (including rate ≤ 0) and every supplied integer duration,
all three children are launched rather than the configuration being
rejected; the rate is stringified verbatim into every invocation, and a
supplied nonzero duration (including negative values) is stringified
verbatim into every invocation, while a supplied zero duration is
omitted (treated as absent). -/
theorem no_validation_still_launches_all
    (e : String) (r : Int) (dOpt : Option Int) (env : Env)
    (hp : ∀ j, env.popen j = .ok) :
    launchedTypes (run_otelgen (Config.mk e r dOpt) env).1 =
      ["traces", "metrics", "logs"] ∧
    (∀ d, dOpt = some d → d ≠ 0 →
       launchEvents (run_otelgen (Config.mk e r dOpt) env).1 =
         [("traces", 0,
            ["otelgen", "--otel-exporter-otlp-endpoint", e, "--rate", toString r,
             "--service-name", "locol-test-generator", "--insecure",
             "--duration", toString d, "traces", "multi"]),
          ("metrics", 1,
            ["otelgen", "--otel-exporter-otlp-endpoint", e, "--rate", toString r,
             "--service-name", "locol-test-generator", "--insecure",
             "--duration", toString d, "metrics", "sum"]),
          ("logs", 2,
            ["otelgen", "--otel-exporter-otlp-endpoint", e, "--rate", toString r,
             "--service-name", "locol-test-generator", "--insecure",
             "--duration", toString d, "logs", "multi"])]) ∧
    (dOpt = some 0 →
       launchEvents (run_otelgen (Config.mk e r dOpt) env).1 =
         [("traces", 0,
            ["otelgen", "--otel-exporter-otlp-endpoint", e, "--rate", toString r,
             "--service-name", "locol-test-generator", "--insecure",
             "traces", "multi"]),
          ("metrics", 1,
            ["otelgen", "--otel-exporter-otlp-endpoint", e, "--rate", toString r,
             "--service-name", "locol-test-generator", "--insecure",
             "metrics", "sum"]),
          ("logs", 2,
            ["otelgen", "--otel-exporter-otlp-endpoint", e, "--rate", toString r,
             "--service-name", "locol-test-generator", "--insecure",
             "logs", "multi"])]) := by
  have hle := launchEvents_run_ok (Config.mk e r dOpt) env (hp 0) (hp 1) (hp 2)
  refine ⟨?_, ?_, ?_⟩
  · simp [launchedTypes, hle]
  · intro d hd hne
    rw [hle]
    simp [base_cmd, fixedArgs, durationArgs, hd, hne]
  · intro hd
    rw [hle]
    simp [base_cmd, fixedArgs, durationArgs, hd]

/-- Witness for C1: with every launch succeeding and SIGINT delivered in
the first wait, the run exits 0, terminates all three handles from the
handler, and performs no wait beyond the first. -/
theorem interrupt_witness :
    (∀ j, envInterrupt.popen j = PopenOutcome.ok) ∧
    (0 : Nat) < 3 ∧
    envInterrupt.waitOutcome 0 = WaitOutcome.sigint ∧
    ((run_otelgen cfgDefault envInterrupt).2 = 0 ∧
     (∀ j, j < 3 → Event.handlerTerm j ∈ (run_otelgen cfgDefault envInterrupt).1) ∧
     (∀ j, Event.waitCall j ∈ (run_otelgen cfgDefault envInterrupt).1 → j ≤ 0)) :=
  ⟨fun _ => rfl, by decide, rfl,
   interrupt_terminates_children_and_exits_zero cfgDefault envInterrupt 0
     (fun _ => rfl) (by decide) (fun j hj => absurd hj (Nat.not_lt_zero j)) rfl⟩

/-- Witness for C2: with the second `Popen` raising `FileNotFoundError`,
the run exits 1, prints both remediation lines, launches only the first
workload, and cleans up the started child. -/
theorem missing_binary_witness :
    (1 : Nat) < 3 ∧
    envMissingBinary.popen 1 = PopenOutcome.fileNotFound ∧
    ((run_otelgen cfgDefault envMissingBinary).2 = 1 ∧
     Event.printed fnfMsg1 ∈ (run_otelgen cfgDefault envMissingBinary).1 ∧
     Event.printed fnfMsg2 ∈ (run_otelgen cfgDefault envMissingBinary).1 ∧
     (∀ ty j c, Event.launch ty j c ∈ (run_otelgen cfgDefault envMissingBinary).1 → j < 1) ∧
     (∀ j, j < 1 → Event.cleanupTerm j (envMissingBinary.cleanupRaises j) ∈
        (run_otelgen cfgDefault envMissingBinary).1)) :=
  ⟨by decide, rfl,
   missing_binary_exits_one_with_remediation cfgDefault envMissingBinary 1 (by decide)
     (by intro j hj; interval_cases j; rfl) rfl⟩

/-- Witness for C3: at rate 2 with duration 30, every launched invocation
carries the duration argument with value 30. -/
theorem duration_flag_witness :
    (∀ j, envAllOk.popen j = PopenOutcome.ok) ∧
    (0 : Int) < cfgTimed.rate ∧
    cfgTimed.duration = some 30 ∧
    launchEvents (run_otelgen cfgTimed envAllOk).1 =
      [("traces", 0,
         fixedArgs cfgTimed ++ ["--duration", toString (30 : Int)] ++ ["traces", "multi"]),
       ("metrics", 1,
         fixedArgs cfgTimed ++ ["--duration", toString (30 : Int)] ++ ["metrics", "sum"]),
       ("logs", 2,
         fixedArgs cfgTimed ++ ["--duration", toString (30 : Int)] ++ ["logs", "multi"])] :=
  ⟨fun _ => rfl, by decide, rfl,
   (duration_flag_presence cfgTimed envAllOk (fun _ => rfl) (by decide)).2 30 rfl (by decide)⟩

/-- Witness for C4: at the default configuration with all launches
succeeding, the launched workload types are exactly traces, metrics,
logs. -/
theorem one_child_witness :
    (∀ j, envAllOk.popen j = PopenOutcome.ok) ∧
    launchedTypes (run_otelgen cfgDefault envAllOk).1 = ["traces", "metrics", "logs"] :=
  ⟨fun _ => rfl, one_child_per_workload_type cfgDefault envAllOk (fun _ => rfl)⟩

/-- Witness for C5: at the default configuration the three launched
commands equal the spec-described invocations. -/
theorem invocation_witness :
    (∀ j, envAllOk.popen j = PopenOutcome.ok) ∧
    cfgDefault.duration = none ∧
    launchEvents (run_otelgen cfgDefault envAllOk).1 =
      [("traces", 0, specInvocation cfgDefault ["traces", "multi"]),
       ("metrics", 1, specInvocation cfgDefault ["metrics", "sum"]),
       ("logs", 2, specInvocation cfgDefault ["logs", "multi"])] :=
  ⟨fun _ => rfl, rfl,
   invocation_matches_spec_description cfgDefault envAllOk (fun _ => rfl) (Or.inl rfl)⟩

/-- Witness for C6: a generic spawn error ("boom" at the third `Popen`)
and a generic wait error ("late" at the second wait) each yield exit 1
with the error message printed and the cleanup pass run. -/
theorem other_error_witness :
    envSpawnError.popen 2 = PopenOutcome.raisesOther "boom" ∧
    (run_otelgen cfgDefault envSpawnError).2 = 1 ∧
    Event.printed (runErrMsg "boom") ∈ (run_otelgen cfgDefault envSpawnError).1 ∧
    envWaitError.waitOutcome 1 = WaitOutcome.raisesOther "late" ∧
    (run_otelgen cfgDefault envWaitError).2 = 1 ∧
    Event.printed (runErrMsg "late") ∈ (run_otelgen cfgDefault envWaitError).1 ∧
    (∀ j, j < 3 → Event.cleanupTerm j (envWaitError.cleanupRaises j) ∈
       (run_otelgen cfgDefault envWaitError).1) := by
  have hA := (other_error_reports_and_exits_one cfgDefault envSpawnError).1 2 "boom"
    (by decide) (by intro j hj; interval_cases j <;> rfl) rfl
  have hB := (other_error_reports_and_exits_one cfgDefault envWaitError).2 1 "late"
    (by decide) (fun _ => rfl) (by intro j hj; interval_cases j <;> rfl) rfl
  exact ⟨rfl, hA.1, hA.2.1, rfl, hB.1, hB.2.1, hB.2.2⟩

/-- Witness for C7: in the missing-binary run (one child started, its
cleanup terminate raising), the cleanup attempt for handle 0 is in the
trace, and replacing the raising cleanup outcomes by non-raising ones
leaves the exit status unchanged. -/
theorem cleanup_witness :
    (0 : Nat) < launchedCount cfgDefault envMissingBinary ∧
    Event.cleanupTerm 0 (envMissingBinary.cleanupRaises 0) ∈
      (run_otelgen cfgDefault envMissingBinary).1 ∧
    (run_otelgen cfgDefault
       (Env.mk envMissingBinary.popen envMissingBinary.waitOutcome (fun _ => false))).2 =
      (run_otelgen cfgDefault envMissingBinary).2 := by
  have h := cleanup_pass_on_every_exit_path cfgDefault envMissingBinary
  exact ⟨by decide, h.1 0 (by decide), h.2 (fun _ => false)⟩

/-- Witness for C8: with every external call succeeding, the interleaving
of launches and waits is the three launches followed by the wait calls in
spec order. -/
theorem order_witness :
    (∀ j, envAllOk.popen j = PopenOutcome.ok) ∧
    (∃ m, 1 ≤ m ∧ m ≤ 3 ∧
      launchWaitSeq (run_otelgen cfgDefault envAllOk).1 =
        [Sum.inl 0, Sum.inl 1, Sum.inl 2] ++ (List.range m).map Sum.inr) :=
  ⟨fun _ => rfl, launches_precede_waits_in_spec_order cfgDefault envAllOk (fun _ => rfl)⟩

/-- Witness for C9: duration supplied as 0 at the default endpoint and
rate behaves exactly as an absent duration. -/
theorem zero_duration_witness :
    main (Config.mk "localhost:4317" 5 (some 0)) envAllOk =
      main (Config.mk "localhost:4317" 5 none) envAllOk ∧
    base_cmd (Config.mk "localhost:4317" 5 (some 0)) =
      fixedArgs (Config.mk "localhost:4317" 5 (some 0)) ∧
    mainStartupEvents (Config.mk "localhost:4317" 5 (some 0)) =
      [Event.printed "Starting telemetry generation...",
       Event.printed ("Endpoint: " ++ "localhost:4317"),
       Event.printed ("Rate: " ++ toString (5 : Int) ++ " seconds"),
       Event.printed "\nPress Ctrl+C to stop"] :=
  zero_duration_behaves_as_absent "localhost:4317" 5 envAllOk

/-- Witness for C10 (amended): with rate -1 and duration -7 the run still
launches all three children, stringifying both values verbatim. -/
theorem no_validation_witness :
    (∀ j, envAllOk.popen j = PopenOutcome.ok) ∧
    launchedTypes (run_otelgen (Config.mk "localhost:4317" (-1) (some (-7))) envAllOk).1 =
      ["traces", "metrics", "logs"] ∧
    launchEvents (run_otelgen (Config.mk "localhost:4317" (-1) (some (-7))) envAllOk).1 =
      [("traces", 0,
         ["otelgen", "--otel-exporter-otlp-endpoint", "localhost:4317",
          "--rate", toString (-1 : Int), "--service-name", "locol-test-generator",
          "--insecure", "--duration", toString (-7 : Int), "traces", "multi"]),
       ("metrics", 1,
         ["otelgen", "--otel-exporter-otlp-endpoint", "localhost:4317",
          "--rate", toString (-1 : Int), "--service-name", "locol-test-generator",
          "--insecure", "--duration", toString (-7 : Int), "metrics", "sum"]),
       ("logs", 2,
         ["otelgen", "--otel-exporter-otlp-endpoint", "localhost:4317",
          "--rate", toString (-1 : Int), "--service-name", "locol-test-generator",
          "--insecure", "--duration", toString (-7 : Int), "logs", "multi"])] := by
  have h := no_validation_still_launches_all "localhost:4317" (-1) (some (-7)) envAllOk
    (fun _ => rfl)
  exact ⟨fun _ => rfl, h.1, h.2.1 (-7) rfl (by decide)⟩

end Locol
